import Mathlib

/-!
Verification of the bloomscroll doomscroll-detection core
(src/DoomscrollDetection.tsx and src/donate.ts) against its
natural-language specification.

Shallow embedding conventions:
* JavaScript numbers used as millisecond timestamps and counters are
  modelled as `Int` (all the operations involved are exact on integers);
  landmark coordinates are modelled as `ℚ`.
* `performance.now()` timestamps are inputs to the per-frame step
  functions.
* React `useRef` cells holding cross-frame state become fields of
  explicit state records threaded through the step functions.
* Promise rejection / thrown exceptions are modelled with `Except`.
-/

-- ── Constants (DoomscrollDetection.tsx lines 18-29) ──────────────────────────

/-- `const CONFIRM_FRAMES = 15` -/
def CONFIRM_FRAMES : Int := 15

/-- `const HOLD_MS = 2_000` -/
def HOLD_MS : Int := 2000

/-- `const COOLDOWN_MS = 30_000` -/
def COOLDOWN_MS : Int := 30000

-- ── Donation trigger policy (DoomscrollDetection.tsx lines 200-230) ──────────

/-- The two cross-frame refs of the trigger policy:
`holdStartRef : number | null` and `lastDonationRef : number`
(initialised to `-COOLDOWN_MS` at line 108). -/
structure TriggerState where
  holdStart : Option Int
  lastDonation : Int
  deriving DecidableEq, Repr

/-- Initial trigger state: `holdStartRef = null`, `lastDonationRef = -COOLDOWN_MS`. -/
def initTrigger : TriggerState := { holdStart := none, lastDonation := -COOLDOWN_MS }

/-- One frame of the donation-trigger block (lines 202-230), given the
frame's `isConfirmed` value and `now = performance.now()`.  Returns the
updated state and whether a donation fired this frame.

```js
if (isConfirmed) {
  if (holdStartRef.current === null) holdStartRef.current = now;
  const sinceLastDonation = now - lastDonationRef.current;
  const heldLongEnough = now - holdStartRef.current >= HOLD_MS;
  const cooldownDone   = sinceLastDonation >= COOLDOWN_MS;
  if (heldLongEnough && cooldownDone) {
    lastDonationRef.current = now;
    holdStartRef.current    = null;
    ... fire ...
  }
} else {
  holdStartRef.current = null;
}
``` -/
def triggerStep (isConfirmed : Bool) (now : Int) (s : TriggerState) :
    TriggerState × Bool :=
  if isConfirmed then
    let holdStart : Int :=
      match s.holdStart with
      | none => now
      | some h => h
    let sinceLastDonation := now - s.lastDonation
    let heldLongEnough : Bool := decide (HOLD_MS ≤ now - holdStart)
    let cooldownDone : Bool := decide (COOLDOWN_MS ≤ sinceLastDonation)
    if heldLongEnough && cooldownDone then
      ({ holdStart := none, lastDonation := now }, true)
    else
      ({ holdStart := some holdStart, lastDonation := s.lastDonation }, false)
  else
    ({ holdStart := none, lastDonation := s.lastDonation }, false)

/-- The hold-start value the frame actually compares against: the stored
one, or `now` when the ref was `null` and was just set. -/
def holdStartEff (s : TriggerState) (now : Int) : Int :=
  s.holdStart.getD now

/-- Run the trigger policy over a list of frames, each a pair
`(isConfirmed, now)`; collects the times at which donations fired. -/
def runSteps (inputs : List (Bool × Int)) (s : TriggerState) :
    TriggerState × List Int :=
  match inputs with
  | [] => (s, [])
  | (c, t) :: rest =>
    let r := triggerStep c t s
    let tail := runSteps rest r.1
    (tail.1, if r.2 then t :: tail.2 else tail.2)

/-- Frame times of the C1 scenario: one frame every 100 ms from 0 through
`HOLD_MS + COOLDOWN_MS + HOLD_MS = 34000`, all with `isConfirmed = true`. -/
def c1Frames : List (Bool × Int) :=
  (List.range 341).map (fun i => (true, (100 * i : Int)))

-- ── Debounce / confirmation tracker (DoomscrollDetection.tsx 186-193) ────────

/-- One frame of the rolling-confirmation counter (`confirmCountRef`):

```js
if (rawDoomscroll) {
  confirmCountRef.current = Math.min(confirmCountRef.current + 1, CONFIRM_FRAMES);
} else {
  confirmCountRef.current = Math.max(confirmCountRef.current - 1, 0);
}
``` -/
def confirmStep (rawDoomscroll : Bool) (confirmCount : Int) : Int :=
  if rawDoomscroll then min (confirmCount + 1) CONFIRM_FRAMES
  else max (confirmCount - 1) 0

/-- `const isConfirmed = confirmCountRef.current >= CONFIRM_FRAMES` (line 193). -/
def isConfirmed (confirmCount : Int) : Bool :=
  decide (CONFIRM_FRAMES ≤ confirmCount)

/-- The counter after a list of raw per-frame booleans, starting from
`confirmCount` (the ref is initialised to 0 at line 104). -/
def runConfirm (raws : List Bool) (confirmCount : Int) : Int :=
  raws.foldl (fun c raw => confirmStep raw c) confirmCount

-- ── Signal fusion (DoomscrollDetection.tsx 178-183) ──────────────────────────

/-- The five per-frame boolean signals consumed by the fuser. -/
structure SignalSet where
  grip : Bool
  gazeDown : Bool
  irisDown : Bool
  phoneInFrame : Bool
  faceVisible : Bool
  deriving DecidableEq, Repr

/-- The raw per-frame doomscrolling boolean:

```js
const phoneBlockingFace = phoneInFrame && !faceVisible;
const activeSignals = [gripDetected, gazeDown, irisDown, phoneInFrame].filter(Boolean).length;
const rawDoomscroll = phoneBlockingFace || activeSignals >= 2;
``` -/
def fuseSignals (s : SignalSet) : Bool :=
  let phoneBlockingFace := s.phoneInFrame && !s.faceVisible
  let activeSignals :=
    ([s.grip, s.gazeDown, s.irisDown, s.phoneInFrame].filter (fun b => b)).length
  phoneBlockingFace || decide (2 ≤ activeSignals)

-- ── Hand grip detection (DoomscrollDetection.tsx 28-66) ──────────────────────

/-- A MediaPipe landmark `{x, y, z}` in frame-normalised coordinates,
modelled over `ℚ`. -/
structure Point where
  x : ℚ
  y : ℚ
  z : ℚ
  deriving DecidableEq, Repr

/-- A hand: 21 landmarks with fixed anatomical indexing. -/
def Hand : Type := Fin 21 → Point

/-- `const FINGER_TIPS = [4, 8, 12, 16, 20]` (line 28). -/
def fingerTips : List (Fin 21) := [4, 8, 12, 16, 20]

/-- `const FINGER_PIPS = [3, 6, 10, 14, 18]` (line 29). -/
def fingerPips : List (Fin 21) := [3, 6, 10, 14, 18]

/-- Squared 3D distance.  The source computes
`Math.sqrt((a.x-b.x)**2 + (a.y-b.y)**2 + (a.z-b.z)**2)` (line 37) and only
ever compares it against the nonnegative bound 0.35, so the comparison is
encoded on squares: `sqrt d < 0.35 iff d < 0.35 ^ 2`. -/
def dist3dSq (a b : Point) : ℚ :=
  (a.x - b.x) ^ 2 + (a.y - b.y) ^ 2 + (a.z - b.z) ^ 2

/-- The curled-finger count of lines 50-53: the loop runs `i = 1..4`
(skipping the thumb at index 0) and counts `hand[TIPS[i]].y > hand[PIPS[i]].y`. -/
def curledCount (hand : Hand) : ℕ :=
  (((fingerTips.zip fingerPips).drop 1).filter
    (fun p => decide ((hand p.2).y < (hand p.1).y))).length

/-- `Math.max(...l)` over a non-empty spread list. -/
def spreadMax (l : List ℚ) : ℚ :=
  match l with
  | [] => 0
  | q :: qs => qs.foldl max q

/-- `Math.min(...l)` over a non-empty spread list. -/
def spreadMin (l : List ℚ) : ℚ :=
  match l with
  | [] => 0
  | q :: qs => qs.foldl min q

/-- `const xs = hand.map((p) => p.x)` (line 59). -/
def handXs (hand : Hand) : List ℚ :=
  (List.finRange 21).map (fun i => (hand i).x)

/-- `const ys = hand.map((p) => p.y)` (line 60). -/
def handYs (hand : Hand) : List ℚ :=
  (List.finRange 21).map (fun i => (hand i).y)

/-- `const bboxW = Math.max(...xs) - Math.min(...xs)` (line 61). -/
def bboxW (hand : Hand) : ℚ := spreadMax (handXs hand) - spreadMin (handXs hand)

/-- `const bboxH = Math.max(...ys) - Math.min(...ys)` (line 62). -/
def bboxH (hand : Hand) : ℚ := spreadMax (handYs hand) - spreadMin (handYs hand)

/-- `isPhoneGrip` (lines 48-66):

```js
const thumbClose = dist3D(hand[4], hand[9]) < 0.35;
const portraitGrip = bboxH > bboxW * 0.8;
return curledCount >= 3 && thumbClose && portraitGrip;
``` -/
def isPhoneGrip (hand : Hand) : Bool :=
  let thumbClose : Bool := decide (dist3dSq (hand 4) (hand 9) < (35 / 100 : ℚ) ^ 2)
  let portraitGrip : Bool := decide (bboxW hand * (8 / 10 : ℚ) < bboxH hand)
  decide (3 ≤ curledCount hand) && thumbClose && portraitGrip

/-- Modelled from the wording of the spec: the four non-thumb fingers as
(tip, proximal-joint) landmark pairs, and a finger is curled when its tip
vertical coordinate exceeds its proximal joint vertical coordinate. -/
def nonThumbPairs : List (Fin 21 × Fin 21) := [(8, 6), (12, 10), (16, 14), (20, 18)]

/-- Modelled from the wording of the spec: count of curled non-thumb fingers. -/
def curledCountSpec (hand : Hand) : ℕ :=
  (nonThumbPairs.filter (fun p => decide ((hand p.2).y < (hand p.1).y))).length

/-- A synthetic hand in a phone grip: three curled fingers, thumb tip on
the middle-finger base, all x equal (portrait bounding box). -/
def gripHand : Hand := fun i =>
  { x := 1 / 2,
    y := if i = (6 : Fin 21) then 1 / 10 else if i = (8 : Fin 21) then 9 / 10
      else if i = (10 : Fin 21) then 1 / 10 else if i = (12 : Fin 21) then 9 / 10
      else if i = (14 : Fin 21) then 1 / 10 else if i = (16 : Fin 21) then 9 / 10
      else 1 / 2,
    z := 0 }

/-- A synthetic hand with every landmark at the same point: no finger is
curled. -/
def openHand : Hand := fun _ => { x := 1 / 2, y := 1 / 2, z := 0 }

-- ── Iris gaze detection (DoomscrollDetection.tsx 78-86) ──────────────────────

/-- A face as consumed by `isGazingDown`: an indexed family of landmarks
plus the array length (`face.length`). -/
structure Face where
  pts : ℕ → Point
  len : ℕ

/-- The JavaScript `x || d` guard applied to a nonnegative finite number:
it substitutes `d` exactly when `x` is `0` (the only falsy value in range),
and keeps `x` — however small — otherwise. -/
def jsOr (x d : ℚ) : ℚ := if x = 0 then d else x

/-- `isGazingDown` (lines 81-86):

```js
if (face.length < 478) return false;
const leftRatio = (face[468].y - face[159].y) / (Math.abs(face[145].y - face[159].y) || 0.001);
const rightRatio = (face[473].y - face[386].y) / (Math.abs(face[374].y - face[386].y) || 0.001);
return (leftRatio + rightRatio) / 2 > 0.55;
``` -/
def isGazingDown (face : Face) : Bool :=
  if face.len < 478 then false
  else
    let leftRatio := ((face.pts 468).y - (face.pts 159).y) /
      jsOr |(face.pts 145).y - (face.pts 159).y| (1 / 1000)
    let rightRatio := ((face.pts 473).y - (face.pts 386).y) /
      jsOr |(face.pts 374).y - (face.pts 386).y| (1 / 1000)
    decide ((55 / 100 : ℚ) < (leftRatio + rightRatio) / 2)

/-- Modelled from the claim's words: the same computation but with each
denominator floored at 0.001 (never smaller than 0.001), as the claim reads
the `|| 0.001` guard. -/
def isGazingDownClaim (face : Face) : Bool :=
  if face.len < 478 then false
  else
    let leftRatio := ((face.pts 468).y - (face.pts 159).y) /
      max |(face.pts 145).y - (face.pts 159).y| (1 / 1000)
    let rightRatio := ((face.pts 473).y - (face.pts 386).y) /
      max |(face.pts 374).y - (face.pts 386).y| (1 / 1000)
    decide ((55 / 100 : ℚ) < (leftRatio + rightRatio) / 2)

/-- A face whose eyelid gap is 0.0005 — nonzero but below 0.001 — with the
iris 0.0004 below the upper lid, on both eyes.  The code divides by 0.0005
(ratio 0.8, gaze down); a 0.001 floor would divide by 0.001 (ratio 0.4, no
gaze down). -/
def c7Face : Face :=
  { len := 478,
    pts := fun i =>
      { x := 0,
        y := if i = 145 then 1 / 2000 else if i = 468 then 1 / 2500
          else if i = 374 then 1 / 2000 else if i = 473 then 1 / 2500
          else 0,
        z := 0 } }

-- ── Frame loop tick (DoomscrollDetection.tsx 134-295) ────────────────────────

/-- One object-detector detection (pre-filtered to the `cell phone`
category); only its existence feeds the signals, the score is drawn. -/
structure Detection where
  score : ℚ
  deriving DecidableEq, Repr

/-- The face-landmarker output of one frame: the face landmark sets and the
facial transformation matrices, the latter reduced to the head pitch in
degrees that `getPitch` (line 74, `atan2(data[6], data[10]) * 180/pi`)
extracts from each — the transcendental extraction itself lies outside the
rational model, so the provider is modelled as handing over the extracted
pitch values. -/
structure FaceResult where
  faceLandmarks : List Face
  matrixPitches : List ℚ

/-- The cross-frame state owned by the detection session: the confirmation
counter and the trigger-policy refs. -/
structure DetState where
  confirmCount : Int
  trigger : TriggerState

/-- One tick of the frame loop (lines 134-295), from the three provider
calls onward: signal extraction (lines 158-183), debounce update (lines
187-193) and trigger evaluation (lines 200-230).  Each provider call is an
`Except` — `detectForVideo` can throw.  The loop body has no try/catch:
the first exception aborts the callback before the
`requestAnimationFrame(loop)` at line 291 runs, so `.error e` means the
exception crossed the scheduling boundary and no next tick was scheduled,
while `.ok` means the tick completed and the next tick was scheduled. -/
def frameTick (handRes : Except String (List Hand))
    (faceRes : Except String FaceResult)
    (objRes : Except String (List Detection))
    (now : Int) (s : DetState) : Except String DetState := do
  let hands ← handRes
  let faceOut ← faceRes
  let dets ← objRes
  let faces := faceOut.faceLandmarks
  let gripDetected := hands.any isPhoneGrip
  let pitch : Option ℚ := faceOut.matrixPitches.head?
  let gazeDown : Bool :=
    match pitch with
    | some p => decide ((5 : ℚ) < p)
    | none => false
  let phoneInFrame : Bool := decide (0 < dets.length)
  let irisDown : Bool :=
    match faces with
    | [] => false
    | f :: _ => isGazingDown f
  let faceVisible : Bool := decide (0 < faces.length)
  let rawDoomscroll := fuseSignals
    { grip := gripDetected, gazeDown := gazeDown, irisDown := irisDown,
      phoneInFrame := phoneInFrame, faceVisible := faceVisible }
  let confirmCount := confirmStep rawDoomscroll s.confirmCount
  let conf := isConfirmed confirmCount
  let trig := triggerStep conf now s.trigger
  pure { confirmCount := confirmCount, trigger := trig.1 }

-- ── Donation sink (donate.ts, DoomscrollDetection.tsx 218-225) ───────────────

/-- `DonationResult` (donate.ts lines 3-10), with the cent amount as `Int`. -/
structure DonationResult where
  success : Bool
  paymentIntentId : String
  amount : Int
  status : String
  message : String
  charity : String
  deriving DecidableEq, Repr

/-- `CHARITY_NAMES` (donate.ts lines 12-17) as a partial lookup. -/
def CHARITY_NAMES : String → Option String := fun charityId =>
  if charityId = "wwf" then some "World Wildlife Fund"
  else if charityId = "dwb" then some "Doctors Without Borders"
  else if charityId = "fa" then some "Feeding America"
  else if charityId = "rc" then some "American Red Cross"
  else none

/-- The handlers the detection path attaches to the donation promise
(DoomscrollDetection.tsx lines 218-225):

```js
triggerDonation(selectedCharityRef.current ?? "rc")
  .then((result) => { if (result.success) { setNotification(result.message); ... } })
  .catch(console.error);
```

The value is the notification the handlers set: a resolved result sets the
message only when `result.success` is true; a rejection reaches the catch
handler, which only logs — it sets no notification and touches no state. -/
def fireNotification (outcome : Except String DonationResult) : Option String :=
  match outcome with
  | .ok result => if result.success then some result.message else none
  | .error _ => none

/-- The fields of the parsed Stripe JSON body that `triggerDonation`
reads: `data.status`, `data.id`, `data.amount`, `data.error.message`. -/
structure StripeBody where
  status : Option String
  intentId : Option String
  amount : Option Int
  errorMessage : Option String
  deriving DecidableEq, Repr

/-- The outcome of the single `fetch` call in `triggerDonation`
(donate.ts lines 47-70): the fetch itself can throw; otherwise a response
arrives with `res.ok` and a body that either parses as JSON (the fields
`triggerDonation` reads) or does not (`none`). -/
inductive FetchOutcome where
  | threw (e : String)
  | resp (ok : Bool) (body : Option StripeBody)

/-- `triggerDonation` (donate.ts lines 19-102), over the secret key, the
charity id and the fetch outcome:

```js
const charityName = CHARITY_NAMES[charityId] ?? "American Red Cross";
if (!STRIPE_SECRET_KEY) throw new Error("Stripe secret key is not configured (VITE_STRIPE_SECRET_KEY)");
try { res = await fetch(...); } catch (fetchErr) { throw fetchErr; }
try { data = await res.json(); } catch (jsonErr) { throw new Error("Stripe returned non-JSON response"); }
if (!res.ok) throw new Error(String(data?.error?.message ?? "Stripe request failed"));
const succeeded = paymentStatus === "succeeded" || paymentStatus === "requires_capture";
return { success: succeeded, ... };
``` -/
def triggerDonation (stripeSecretKey charityId : String)
    (fetch : FetchOutcome) : Except String DonationResult :=
  let charityName := (CHARITY_NAMES charityId).getD "American Red Cross"
  if stripeSecretKey = "" then
    .error "Stripe secret key is not configured (VITE_STRIPE_SECRET_KEY)"
  else
    match fetch with
    | .threw e => .error e
    | .resp ok body =>
      match body with
      | none => .error "Stripe returned non-JSON response"
      | some data =>
        if !ok then .error (data.errorMessage.getD "Stripe request failed")
        else
          let paymentStatus := data.status.getD ""
          let succeeded := paymentStatus == "succeeded" ||
            paymentStatus == "requires_capture"
          .ok { success := succeeded,
                paymentIntentId := data.intentId.getD "",
                amount := data.amount.getD 0,
                status := paymentStatus,
                message := "$0.50 donated to " ++ charityName,
                charity := charityName }

/-- A resolved result whose success flag is true (for the C9 witness). -/
def c9OkResult : DonationResult :=
  { success := true, paymentIntentId := "pi_1", amount := 50,
    status := "succeeded", message := "$0.50 donated to American Red Cross",
    charity := "American Red Cross" }

/-- A parsed ok-response body whose status is `requires_capture`
(for the C10 witness). -/
def c10Body : StripeBody :=
  { status := some "requires_capture", intentId := some "pi_123",
    amount := some 50, errorMessage := none }

/-- A resolved result whose success flag is false — accepted by the API but
not marked succeeded (for the C10 witness). -/
def c10FailResult : DonationResult :=
  { success := false, paymentIntentId := "pi_2", amount := 50,
    status := "processing", message := "$0.50 donated to American Red Cross",
    charity := "American Red Cross" }

-- ── Theorems ─────────────────────────────────────────────────────────────────

/-- Helper: on a confirmed frame the trigger step is exactly the
hold-and-cooldown gate, with the documented updates on firing. -/
theorem triggerStep_true_eq (now : Int) (s : TriggerState) :
    triggerStep true now s =
      if HOLD_MS ≤ now - holdStartEff s now ∧ COOLDOWN_MS ≤ now - s.lastDonation then
        ({ holdStart := none, lastDonation := now }, true)
      else
        ({ holdStart := some (holdStartEff s now), lastDonation := s.lastDonation },
          false) := by
  cases h : s.holdStart <;>
    simp only [triggerStep, holdStartEff, h, Option.getD_none, Option.getD_some,
      Bool.and_eq_true, decide_eq_true_eq, if_true]

/-- Helper: on an unconfirmed frame the hold start is cleared and
`lastDonation` is untouched; no donation fires. -/
theorem triggerStep_false_eq (now : Int) (s : TriggerState) :
    triggerStep false now s =
      ({ holdStart := none, lastDonation := s.lastDonation }, false) := by
  simp [triggerStep]

/-- Helper: whenever the trigger state after a run of frames holds
`holdStart = some t`, either the run started with that very hold start and
every frame of the run was confirmed, or `t` is the timestamp of some
confirmed frame of the run after which every frame was confirmed. -/
theorem holdStart_origin (inputs : List (Bool × Int)) :
    ∀ (s : TriggerState) (t : Int),
      (runSteps inputs s).1.holdStart = some t →
      (s.holdStart = some t ∧ ∀ p ∈ inputs, p.1 = true) ∨
      ∃ ys zs, inputs = ys ++ (true, t) :: zs ∧ ∀ p ∈ zs, p.1 = true := by
  induction inputs with
  | nil =>
    intro s t h
    exact Or.inl ⟨h, by simp⟩
  | cons x rest ih =>
    intro s t h
    obtain ⟨c, τ⟩ := x
    have h' : (runSteps rest (triggerStep c τ s).1).1.holdStart = some t := by
      simpa [runSteps] using h
    rcases ih (triggerStep c τ s).1 t h' with ⟨hs, hall⟩ | ⟨ys, zs, heq, hzs⟩
    · cases c with
      | false =>
        rw [triggerStep_false_eq] at hs
        exact absurd hs (by simp)
      | true =>
        rw [triggerStep_true_eq] at hs
        split at hs
        · exact absurd hs (by simp)
        · simp only [Option.some.injEq] at hs
          cases hh : s.holdStart with
          | none =>
            refine Or.inr ⟨[], rest, ?_, hall⟩
            have ht : t = τ := by
              rw [← hs]; simp [holdStartEff, hh]
            simp [ht]
          | some h0 =>
            have ht : h0 = t := by simpa [holdStartEff, hh] using hs
            refine Or.inl ⟨by simp [hh, ht], ?_⟩
            intro p hp
            rcases List.mem_cons.mp hp with hp | hp
            · simp [hp]
            · exact hall p hp
    · exact Or.inr ⟨(c, τ) :: ys, zs, by simp [heq], hzs⟩

/-- C2: `holdStart` is cleared on every frame where `confirmed` is false and
on every frame where a donation fires; a fire additionally requires a full
`HOLD_MS` measured from the effective hold start.  Moreover, starting from a
cleared hold (in particular, right after any confirmation drop), the hold
start can only be the timestamp of a confirmed frame followed exclusively by
confirmed frames — so a later donation needs a fresh `HOLD_MS` of continuous
confirmation, with no partial credit across confirmation gaps. -/
theorem c2_trigger_state_invariant :
    (∀ (now : Int) (s : TriggerState),
        (triggerStep false now s).1.holdStart = none)
    ∧ (∀ (now : Int) (s : TriggerState),
        (triggerStep true now s).2 = true →
        (triggerStep true now s).1.holdStart = none ∧
          HOLD_MS ≤ now - holdStartEff s now)
    ∧ (∀ (inputs : List (Bool × Int)) (s : TriggerState) (t : Int),
        s.holdStart = none →
        (runSteps inputs s).1.holdStart = some t →
        ∃ ys zs, inputs = ys ++ (true, t) :: zs ∧ ∀ p ∈ zs, p.1 = true) := by
  refine ⟨fun now s => by rw [triggerStep_false_eq], ?_, ?_⟩
  · intro now s hfire
    rw [triggerStep_true_eq] at hfire ⊢
    split at hfire
    · rename_i hcond
      rw [if_pos hcond]
      exact ⟨rfl, hcond.1⟩
    · exact absurd hfire (by simp)
  · intro inputs s t hnone h
    rcases holdStart_origin inputs s t h with ⟨hs, _⟩ | hex
    · rw [hnone] at hs; exact absurd hs (by simp)
    · exact hex

/-- Witness for C2 at concrete inputs: a drop frame clears the hold; a fire
at `now = 2000` from hold start 0 clears the hold and satisfies the
`HOLD_MS` bound; a one-frame confirmed run from a cleared hold yields a hold
start equal to that frame's time. -/
theorem c2_trigger_state_invariant_witness :
    (triggerStep false 5 initTrigger).1.holdStart = none
    ∧ ((triggerStep true 2000
          { holdStart := some 0, lastDonation := -30000 }).1.holdStart = none ∧
        HOLD_MS ≤ 2000 -
          holdStartEff { holdStart := some 0, lastDonation := -30000 } 2000)
    ∧ ∃ ys zs, [((true : Bool), (7 : Int))] = ys ++ (true, 7) :: zs ∧
        ∀ p ∈ zs, p.1 = true :=
  ⟨c2_trigger_state_invariant.1 5 initTrigger,
   c2_trigger_state_invariant.2.1 2000
     { holdStart := some 0, lastDonation := -30000 } (by decide),
   c2_trigger_state_invariant.2.2 [(true, 7)] initTrigger 7 rfl (by decide)⟩

/-- C1: On every confirmed frame, a donation fires iff
`now - holdStart ≥ HOLD_MS` (where a null hold start was just set to `now`)
and `now - lastDonation ≥ COOLDOWN_MS`; on firing, `lastDonation` is set to
`now` and `holdStart` is cleared.  In the scenario with `confirmed` held
continuously for `HOLD_MS + COOLDOWN_MS + HOLD_MS` (frames every 100 ms from
0 to 34000), exactly two donations fire, at t = 2000 and t = 32000, and the
hold timer of the second fire restarts at t = 2100 — the first frame after
the first fire — rather than being measured from the original confirmation
at t = 0. -/
theorem c1_donation_fire_policy :
    (∀ (now : Int) (s : TriggerState),
        triggerStep true now s =
          if HOLD_MS ≤ now - holdStartEff s now ∧
              COOLDOWN_MS ≤ now - s.lastDonation then
            ({ holdStart := none, lastDonation := now }, true)
          else
            ({ holdStart := some (holdStartEff s now),
               lastDonation := s.lastDonation }, false))
    ∧ (runSteps c1Frames initTrigger).2 = [2000, 32000]
    ∧ (runSteps (c1Frames.take 22) initTrigger).1.holdStart = some 2100 := by
  refine ⟨triggerStep_true_eq, ?_, ?_⟩ <;>
    · set_option maxRecDepth 10000 in decide

/-- Helper: one counter step keeps the counter in `[0, CONFIRM_FRAMES]`. -/
theorem confirmStep_bounds (raw : Bool) (c : Int) (h0 : 0 ≤ c)
    (h1 : c ≤ CONFIRM_FRAMES) :
    0 ≤ confirmStep raw c ∧ confirmStep raw c ≤ CONFIRM_FRAMES := by
  cases raw <;> simp [confirmStep, CONFIRM_FRAMES] at * <;> omega

/-- Helper: the run of the counter keeps it in `[0, CONFIRM_FRAMES]`. -/
theorem runConfirm_bounds (raws : List Bool) :
    ∀ c : Int, 0 ≤ c → c ≤ CONFIRM_FRAMES →
      0 ≤ runConfirm raws c ∧ runConfirm raws c ≤ CONFIRM_FRAMES := by
  induction raws with
  | nil => intro c h0 h1; simpa [runConfirm] using ⟨h0, h1⟩
  | cons r rs ih =>
    intro c h0 h1
    have hstep := confirmStep_bounds r c h0 h1
    simpa [runConfirm, List.foldl_cons] using ih (confirmStep r c) hstep.1 hstep.2

/-- Helper: each step raises the counter by at most one, and only on a
frame whose raw signal is true. -/
theorem runConfirm_le_count (raws : List Bool) :
    ∀ c : Int, 0 ≤ c → runConfirm raws c ≤ c + (raws.count true : Int) := by
  induction raws with
  | nil => intro c _; simp [runConfirm]
  | cons r rs ih =>
    intro c h0
    have hstep : confirmStep r c ≤ c + (if r then 1 else 0) ∧
        0 ≤ confirmStep r c := by
      cases r <;> simp [confirmStep, CONFIRM_FRAMES] <;> omega
    have htail := ih (confirmStep r c) hstep.2
    have hcount : ((r :: rs).count true : Int) =
        (rs.count true : Int) + (if r then 1 else 0) := by
      cases r <;> simp [List.count_cons]
    simp only [runConfirm, List.foldl_cons] at htail ⊢
    omega

/-- C3: the confirm counter stays in `[0, CONFIRM_FRAMES]` for every frame
sequence: a true raw frame increments it capped at `CONFIRM_FRAMES`, a false
raw frame decrements it floored at 0. -/
theorem c3_confirm_counter_saturates :
    (∀ (raw : Bool) (c : Int), 0 ≤ c → c ≤ CONFIRM_FRAMES →
        0 ≤ confirmStep raw c ∧ confirmStep raw c ≤ CONFIRM_FRAMES)
    ∧ (∀ (raws : List Bool) (c : Int), 0 ≤ c → c ≤ CONFIRM_FRAMES →
        0 ≤ runConfirm raws c ∧ runConfirm raws c ≤ CONFIRM_FRAMES)
    ∧ (∀ c : Int, confirmStep true c = min (c + 1) CONFIRM_FRAMES ∧
        confirmStep false c = max (c - 1) 0) :=
  ⟨confirmStep_bounds, fun raws c => runConfirm_bounds raws c,
   fun c => ⟨by simp [confirmStep], by simp [confirmStep]⟩⟩

/-- Witness for C3 at concrete inputs: a saturated increment at the cap, a
short concrete run, and the two step equations at counter 3. -/
theorem c3_confirm_counter_saturates_witness :
    (0 ≤ confirmStep true 15 ∧ confirmStep true 15 ≤ CONFIRM_FRAMES)
    ∧ (0 ≤ runConfirm [true, false, true] 0 ∧
        runConfirm [true, false, true] 0 ≤ CONFIRM_FRAMES)
    ∧ (confirmStep true 3 = min (3 + 1) CONFIRM_FRAMES ∧
        confirmStep false 3 = max (3 - 1) 0) :=
  ⟨c3_confirm_counter_saturates.1 true 15 (by decide) (by decide),
   c3_confirm_counter_saturates.2.1 [true, false, true] 0 (by decide) (by decide),
   c3_confirm_counter_saturates.2.2 3⟩

/-- C4: starting from counter 0, the implementation test
`counter >= CONFIRM_FRAMES` coincides with `counter == CONFIRM_FRAMES`
(thanks to the cap), and a confirmed state needs at least `CONFIRM_FRAMES`
frames whose raw signal was true — hence at least `CONFIRM_FRAMES` frames:
no shorter path makes `confirmed` true. -/
theorem c4_confirmed_iff_counter_at_cap :
    ∀ raws : List Bool,
      (isConfirmed (runConfirm raws 0) = true ↔
        runConfirm raws 0 = CONFIRM_FRAMES)
      ∧ (isConfirmed (runConfirm raws 0) = true →
          CONFIRM_FRAMES ≤ (raws.count true : Int) ∧
          CONFIRM_FRAMES ≤ (raws.length : Int)) := by
  intro raws
  have hub := (runConfirm_bounds raws 0 (by decide) (by decide)).2
  constructor
  · simp only [isConfirmed, decide_eq_true_eq]
    omega
  · intro hconf
    simp only [isConfirmed, decide_eq_true_eq] at hconf
    have hle := runConfirm_le_count raws 0 (by decide)
    have hcl : (raws.count true : Int) ≤ (raws.length : Int) := by
      exact_mod_cast List.count_le_length true raws
    omega

/-- Witness for C4 at a concrete input: fifteen consecutive true frames
confirm, and the theorem then yields the cap equality and the frame-count
lower bounds. -/
theorem c4_confirmed_iff_counter_at_cap_witness :
    runConfirm (List.replicate 15 true) 0 = CONFIRM_FRAMES ∧
    CONFIRM_FRAMES ≤ ((List.replicate 15 true).count true : Int) ∧
    CONFIRM_FRAMES ≤ ((List.replicate 15 true).length : Int) :=
  ⟨(c4_confirmed_iff_counter_at_cap (List.replicate 15 true)).1.mp (by decide),
   (c4_confirmed_iff_counter_at_cap (List.replicate 15 true)).2 (by decide)⟩

/-- C5: the raw doomscrolling boolean is `(phoneInFrame AND NOT faceVisible)
OR (at least 2 of the four signals active)`; with a visible face, no single
signal alone makes it true. -/
theorem c5_signal_fusion_rule :
    ∀ s : SignalSet,
      (fuseSignals s = true ↔
        ((s.phoneInFrame = true ∧ s.faceVisible = false) ∨
          2 ≤ ([s.grip, s.gazeDown, s.irisDown, s.phoneInFrame].filter
                (fun b => b)).length))
      ∧ (s.faceVisible = true →
          ([s.grip, s.gazeDown, s.irisDown, s.phoneInFrame].filter
            (fun b => b)).length ≤ 1 →
          fuseSignals s = false) := by
  rintro ⟨g, gz, ir, ph, fv⟩
  cases g <;> cases gz <;> cases ir <;> cases ph <;> cases fv <;>
    exact ⟨by decide, by decide⟩

/-- Witness for C5 at a concrete input: with the face visible and only the
grip signal active the fused raw signal is false. -/
theorem c5_signal_fusion_rule_witness :
    fuseSignals ⟨true, false, false, false, true⟩ = false :=
  (c5_signal_fusion_rule ⟨true, false, false, false, true⟩).2 rfl (by decide)

/-- Helper: the loop of lines 51-53 counts exactly the four non-thumb
(tip, proximal-joint) pairs named by the spec. -/
theorem curledCount_eq_spec (hand : Hand) :
    curledCount hand = curledCountSpec hand := by
  have h : (fingerTips.zip fingerPips).drop 1 = nonThumbPairs := by decide
  simp [curledCount, curledCountSpec, h]

/-- C6: `isPhoneGrip` is true iff at least 3 of the 4 non-thumb fingers are
curled (tip y exceeds proximal-joint y), the thumb tip is within normalised
3D distance 0.35 of landmark 9 (encoded on squared distances), and the
bounding-box height exceeds 0.8 times its width; violating any single
condition makes it false. -/
theorem c6_isPhoneGrip_characterisation :
    ∀ hand : Hand,
      (isPhoneGrip hand = true ↔
        (3 ≤ curledCountSpec hand ∧
          dist3dSq (hand 4) (hand 9) < (35 / 100 : ℚ) ^ 2 ∧
          bboxW hand * (8 / 10 : ℚ) < bboxH hand))
      ∧ (curledCountSpec hand < 3 → isPhoneGrip hand = false)
      ∧ (¬ dist3dSq (hand 4) (hand 9) < (35 / 100 : ℚ) ^ 2 →
          isPhoneGrip hand = false)
      ∧ (¬ bboxW hand * (8 / 10 : ℚ) < bboxH hand →
          isPhoneGrip hand = false) := by
  intro hand
  have hiff : isPhoneGrip hand = true ↔
      (3 ≤ curledCountSpec hand ∧
        dist3dSq (hand 4) (hand 9) < (35 / 100 : ℚ) ^ 2 ∧
        bboxW hand * (8 / 10 : ℚ) < bboxH hand) := by
    simp [isPhoneGrip, curledCount_eq_spec, and_assoc]
  refine ⟨hiff, fun hviol => ?_, fun hviol => ?_, fun hviol => ?_⟩ <;>
    cases hgrip : isPhoneGrip hand
  · rfl
  · exact absurd (hiff.mp hgrip).1 (by omega)
  · rfl
  · exact absurd (hiff.mp hgrip).2.1 hviol
  · rfl
  · exact absurd (hiff.mp hgrip).2.2 hviol

unseal Rat.mul Rat.add Rat.sub Rat.inv in
set_option maxRecDepth 40000 in
/-- Witness for C6 at concrete hands: the synthetic grip hand satisfies all
three conditions and is recognised; the open hand has no curled finger and
is rejected. -/
theorem c6_isPhoneGrip_characterisation_witness :
    isPhoneGrip gripHand = true ∧ isPhoneGrip openHand = false :=
  ⟨(c6_isPhoneGrip_characterisation gripHand).1.mpr (by decide),
   (c6_isPhoneGrip_characterisation openHand).2.1 (by decide)⟩

unseal Rat.mul Rat.add Rat.sub Rat.inv in
set_option maxRecDepth 40000 in
/-- C7 counterexample: the claim reads the `|| 0.001` guard as a floor
(denominator never smaller than 0.001).  On a face whose eyelid gap is
0.0005 — nonzero and below 0.001 — the code divides by 0.0005 and reports
gaze-down, while the floored reading of the claim reports no gaze-down:
the claimed description is false for this input. -/
theorem c7_iris_floor_counterexample :
    isGazingDown c7Face = true ∧ isGazingDownClaim c7Face = false := by
  constructor <;> decide

/-- C7 (amended): `isGazingDown` is false for a face with fewer than 478
landmarks; otherwise it is true iff the mean over the two eyes of
`(iris.y - upperLid.y) / denom` exceeds 0.55 with the fixed landmark
indices, where `denom` is `|lowerLid.y - upperLid.y|` guarded by `|| 0.001`
— the guard substitutes 0.001 exactly when the absolute difference is 0
(division-by-zero guard) and keeps any nonzero value, even ones smaller
than 0.001. -/
theorem c7_isGazingDown_amended :
    ∀ face : Face,
      (face.len < 478 → isGazingDown face = false)
      ∧ (478 ≤ face.len →
          (isGazingDown face = true ↔
            (55 / 100 : ℚ) <
              (((face.pts 468).y - (face.pts 159).y) /
                  jsOr |(face.pts 145).y - (face.pts 159).y| (1 / 1000) +
                ((face.pts 473).y - (face.pts 386).y) /
                  jsOr |(face.pts 374).y - (face.pts 386).y| (1 / 1000)) / 2))
      ∧ (∀ x d : ℚ, x ≠ 0 → jsOr x d = x)
      ∧ (∀ d : ℚ, jsOr 0 d = d) := by
  intro face
  refine ⟨fun h => by simp [isGazingDown, h], fun h => ?_,
    fun x d hx => by simp [jsOr, hx], fun d => by simp [jsOr]⟩
  have hn : ¬ face.len < 478 := by omega
  simp [isGazingDown, hn]

unseal Rat.mul Rat.add Rat.sub Rat.inv in
set_option maxRecDepth 40000 in
/-- Witness for C7 at concrete inputs: a 0-landmark face is rejected, the
counterexample face is gaze-down via the amended ratio condition, a nonzero
denominator passes `jsOr` unchanged, a zero denominator is replaced by the
fallback. -/
theorem c7_isGazingDown_amended_witness :
    isGazingDown { pts := fun _ => { x := 0, y := 0, z := 0 }, len := 0 } = false
    ∧ isGazingDown c7Face = true
    ∧ jsOr (1 / 2 : ℚ) (1 / 1000) = 1 / 2
    ∧ jsOr (0 : ℚ) (1 / 1000) = 1 / 1000 :=
  ⟨(c7_isGazingDown_amended _).1 (by decide),
   ((c7_isGazingDown_amended c7Face).2.1 (by decide)).mpr (by decide),
   (c7_isGazingDown_amended c7Face).2.2.1 (1 / 2) (1 / 1000) (by decide),
   (c7_isGazingDown_amended c7Face).2.2.2 (1 / 1000)⟩

/-- C8 counterexample: a tick whose hand-landmarker call throws ends in
`.error` — the exception crosses the scheduling boundary uncaught and the
`requestAnimationFrame` at the end of the body never runs, contradicting
the claim that every per-tick exception is caught and the next tick still
scheduled. -/
theorem c8_tick_exception_counterexample :
    frameTick (.error "detectForVideo failed")
      (.ok { faceLandmarks := [], matrixPitches := [] }) (.ok []) 0
      { confirmCount := 0, trigger := initTrigger } =
      .error "detectForVideo failed" := rfl

/-- C8 (amended): the frame-loop tick body is not wrapped in any
try/catch: an exception from any of the three provider calls propagates
out of the tick unchanged and the next tick is not scheduled; only a tick
in which all per-tick work succeeds completes and schedules the next tick. -/
theorem c8_tick_exception_propagation :
    (∀ (e : String) faceRes objRes (now : Int) (s : DetState),
        frameTick (.error e) faceRes objRes now s = .error e)
    ∧ (∀ (e : String) (hands : List Hand) objRes (now : Int) (s : DetState),
        frameTick (.ok hands) (.error e) objRes now s = .error e)
    ∧ (∀ (e : String) (hands : List Hand) (faceOut : FaceResult) (now : Int)
        (s : DetState),
        frameTick (.ok hands) (.ok faceOut) (.error e) now s = .error e)
    ∧ (∀ (hands : List Hand) (faceOut : FaceResult) (dets : List Detection)
        (now : Int) (s : DetState),
        ∃ t : DetState,
          frameTick (.ok hands) (.ok faceOut) (.ok dets) now s = .ok t) :=
  ⟨fun _ _ _ _ _ => rfl, fun _ _ _ _ _ => rfl, fun _ _ _ _ _ => rfl,
   fun _ _ _ _ _ => ⟨_, rfl⟩⟩

/-- C9 counterexample: a rejected donation promise in the detection fire
path produces no notification at all — the catch handler only logs — so
the failure is not surfaced as a user-visible error message as the claim
states. -/
theorem c9_rejection_silent_counterexample :
    fireNotification (.error "Your card was declined") = none := rfl

/-- C9 (amended): a donation-sink rejection during a fire is caught by the
attached catch handler and only logged — no user-visible message is set
(only a successful result sets the notification) — and trigger-policy
state is unchanged by the failure: `lastDonation` was already committed to
the fire time by the fire itself and no promise handler touches it. -/
theorem c9_sink_failure_handling :
    (∀ e : String, fireNotification (.error e) = none)
    ∧ (∀ r : DonationResult, r.success = true →
        fireNotification (.ok r) = some r.message)
    ∧ (∀ (now : Int) (s : TriggerState), (triggerStep true now s).2 = true →
        (triggerStep true now s).1.lastDonation = now) := by
  refine ⟨fun e => rfl, fun r hr => by simp [fireNotification, hr],
    fun now s hf => ?_⟩
  rw [triggerStep_true_eq] at hf ⊢
  split at hf
  · rename_i hcond
    simp [if_pos hcond]
  · exact absurd hf (by simp)

/-- Witness for C9 at concrete inputs: a rejection yields no notification,
a successful result yields its message, and a concrete fire at `now = 2000`
commits `lastDonation = 2000`. -/
theorem c9_sink_failure_handling_witness :
    fireNotification (.error "network error") = none
    ∧ fireNotification (.ok c9OkResult) = some c9OkResult.message
    ∧ (triggerStep true 2000
        { holdStart := some 0, lastDonation := -40000 }).1.lastDonation = 2000 :=
  ⟨c9_sink_failure_handling.1 "network error",
   c9_sink_failure_handling.2.1 c9OkResult rfl,
   c9_sink_failure_handling.2.2 2000
     { holdStart := some 0, lastDonation := -40000 } (by decide)⟩

/-- C10: `triggerDonation` rejects exactly when the Stripe secret key is
empty, the fetch throws, the body fails to parse as JSON, or the response
is not ok; every ok JSON response resolves, with `success` true iff the
response status field is `succeeded` or `requires_capture` — and a
resolved result with `success = false` produces no notification in the
detection fire path. -/
theorem c10_triggerDonation_outcomes :
    (∀ (charityId : String) (fetch : FetchOutcome),
        triggerDonation "" charityId fetch =
          .error "Stripe secret key is not configured (VITE_STRIPE_SECRET_KEY)")
    ∧ (∀ (key charityId e : String), key ≠ "" →
        triggerDonation key charityId (.threw e) = .error e)
    ∧ (∀ (key charityId : String) (ok : Bool), key ≠ "" →
        triggerDonation key charityId (.resp ok none) =
          .error "Stripe returned non-JSON response")
    ∧ (∀ (key charityId : String) (data : StripeBody), key ≠ "" →
        triggerDonation key charityId (.resp false (some data)) =
          .error (data.errorMessage.getD "Stripe request failed"))
    ∧ (∀ (key charityId : String) (data : StripeBody), key ≠ "" →
        ∃ r : DonationResult,
          triggerDonation key charityId (.resp true (some data)) = .ok r ∧
          (r.success = true ↔
            (data.status.getD "" = "succeeded" ∨
              data.status.getD "" = "requires_capture")))
    ∧ (∀ r : DonationResult, r.success = false →
        fireNotification (.ok r) = none) := by
  refine ⟨?_, ?_, ?_, ?_, ?_, ?_⟩
  · intro charityId fetch
    simp [triggerDonation]
  · intro key charityId e hk
    simp [triggerDonation, hk]
  · intro key charityId ok hk
    cases ok <;> simp [triggerDonation, hk]
  · intro key charityId data hk
    simp [triggerDonation, hk]
  · intro key charityId data hk
    refine ⟨⟨data.status.getD "" == "succeeded" ||
        data.status.getD "" == "requires_capture",
      data.intentId.getD "", data.amount.getD 0, data.status.getD "",
      "$0.50 donated to " ++ ((CHARITY_NAMES charityId).getD "American Red Cross"),
      (CHARITY_NAMES charityId).getD "American Red Cross"⟩, ?_, ?_⟩
    · simp [triggerDonation, hk]
    · simp
  · intro r hr
    simp [fireNotification, hr]

/-- Witness for C10 at concrete inputs: an unset key rejects, a throwing
fetch rejects with the same error, a non-JSON body rejects, a non-ok
response rejects with the default message, an ok `requires_capture`
response resolves with `success = true`, and a resolved `success = false`
result is silent. -/
theorem c10_triggerDonation_outcomes_witness :
    triggerDonation "" "rc" (.threw "net down") =
      .error "Stripe secret key is not configured (VITE_STRIPE_SECRET_KEY)"
    ∧ triggerDonation "sk_test_abc" "rc" (.threw "Failed to fetch") =
      .error "Failed to fetch"
    ∧ triggerDonation "sk_test_abc" "rc" (.resp true none) =
      .error "Stripe returned non-JSON response"
    ∧ triggerDonation "sk_test_abc" "rc" (.resp false (some c10Body)) =
      .error (c10Body.errorMessage.getD "Stripe request failed")
    ∧ (∃ r : DonationResult,
        triggerDonation "sk_test_abc" "wwf" (.resp true (some c10Body)) = .ok r ∧
        (r.success = true ↔
          (c10Body.status.getD "" = "succeeded" ∨
            c10Body.status.getD "" = "requires_capture")))
    ∧ fireNotification (.ok c10FailResult) = none :=
  ⟨c10_triggerDonation_outcomes.1 "rc" (.threw "net down"),
   c10_triggerDonation_outcomes.2.1 "sk_test_abc" "rc" "Failed to fetch"
     (by decide),
   c10_triggerDonation_outcomes.2.2.1 "sk_test_abc" "rc" true (by decide),
   c10_triggerDonation_outcomes.2.2.2.1 "sk_test_abc" "rc" c10Body (by decide),
   c10_triggerDonation_outcomes.2.2.2.2.1 "sk_test_abc" "wwf" c10Body
     (by decide),
   c10_triggerDonation_outcomes.2.2.2.2.2 c10FailResult rfl⟩
